import Mathlib

/-!
Verification development for the AuraLink backend (Node.js).

The embedding below translates the four core components of the repository
into Lean definitions:

* `MqttHandler` — `src/handlers/mqttHandler.js` (part_000, lines 15-160):
  connection flag, topic-handler map, `subscribe`, `publish`.
* `EmailHandler.fetchUnreadEmails` — part_000, lines 408-480 (the version
  used by `src/index.js`, which relies on its `isEmailEnabled` method):
  every fetch error is caught internally and an empty list is returned.
* `DataStore` — part_001, lines 21-169: `storeSensorReading` (push, then
  slice(-1000) when length exceeds 1000, then write which may fail) and
  `getLatestReadings` (`readings.slice(-count)`).
* `src/index.js` — `handleSensorData` (lines 181-229) and
  `processSensorData` (lines 234-302).

JavaScript values flowing through the pipeline are modelled by `JVal`
(JSON values plus NaN, which `parseFloat` can produce).  A constructed
reading object is modelled as its list of property assignments, in
assignment order, with property lookup returning the last assignment
(`jsAssignGet`), matching JS object-literal / spread semantics on the
reads the program performs.  Asynchronous external calls (the LLM, the
Gmail API, the MQTT transport, the file write) are modelled by outcome
parameters: each call site receives the outcome the external world would
have produced there, and the definitions replay the source's control
flow (including its try/catch structure) over those outcomes.
-/

/-- A JavaScript value as it can appear in this pipeline: a JSON value
(`JSON.parse` output, string messages, objects built by the code) or the
floating-point `NaN` that `parseFloat` may return. Numbers are modelled
as integers; no claim depends on fractional arithmetic. -/
inductive JVal where
  | num (n : Int)
  | nan
  | str (s : String)
  | bool (b : Bool)
  | null
  | arr (xs : List JVal)
  | obj (fields : List (String × JVal))

/-- `v === null` in JS. -/
def JVal.isNull : JVal → Bool
  | .null => true
  | _ => false

/-- `typeof v === 'string'` in JS. -/
def JVal.isStr : JVal → Bool
  | .str _ => true
  | _ => false

/-- `typeof v === 'object'` in JS: objects, arrays and `null` (the
well-known JS quirk); numbers, NaN, strings and booleans are not. -/
def JVal.typeofObject : JVal → Bool
  | .obj _ => true
  | .arr _ => true
  | .null => true
  | _ => false

/-- JS truthiness of a value (`!v` is its negation): `null`, `false`,
`0`, `NaN` and the empty string are falsy; everything else is truthy. -/
def JVal.truthy : JVal → Bool
  | .null => false
  | .bool b => b
  | .num n => decide (n ≠ 0)
  | .nan => false
  | .str s => !s.isEmpty
  | .arr _ => true
  | .obj _ => true

mutual

/-- `JSON.stringify` on the modelled values (`JSON.stringify(NaN)` is
`"null"`). String escaping is elided; no claim depends on it. -/
def JVal.stringify : JVal → String
  | .num n => toString n
  | .nan => "null"
  | .str s => "\"" ++ s ++ "\""
  | .bool b => if b then "true" else "false"
  | .null => "null"
  | .arr xs => "[" ++ JVal.stringifyList xs ++ "]"
  | .obj fs => "\x7b" ++ JVal.stringifyFields fs ++ "\x7d"

/-- Comma-separated serialization of array elements. -/
def JVal.stringifyList : List JVal → String
  | [] => ""
  | [x] => JVal.stringify x
  | x :: y :: xs => JVal.stringify x ++ "," ++ JVal.stringifyList (y :: xs)

/-- Comma-separated serialization of object fields. -/
def JVal.stringifyFields : List (String × JVal) → String
  | [] => ""
  | [(k, v)] => "\"" ++ k ++ "\":" ++ JVal.stringify v
  | (k, v) :: f :: fs =>
      "\"" ++ k ++ "\":" ++ JVal.stringify v ++ "," ++ JVal.stringifyFields (f :: fs)

end

/-- Property read on a JS object modelled as its assignment list: the
last assignment to a key wins; `none` models `undefined`. -/
def jsAssignGet (l : List (String × JVal)) (k : String) : Option JVal :=
  l.foldl (fun acc kv => if kv.1 = k then some kv.2 else acc) none

/-- Property read `v.k` on an arbitrary JS value: only objects have
string-keyed own properties here; on numbers, strings, booleans and
arrays the properties read by this program are `undefined`.  (Reading a
property of `null` throws; callers model that case separately.) -/
def jsGet (v : JVal) (k : String) : Option JVal :=
  match v with
  | .obj fields => jsAssignGet fields k
  | _ => none

/-- Own enumerable properties contributed by `...v` object spread:
an object's fields; index-keyed entries for arrays and strings; nothing
for primitives. -/
def jsSpread : JVal → List (String × JVal)
  | .obj fields => fields
  | .arr xs => xs.enum.map (fun p => (toString p.1, p.2))
  | .str s => s.toList.enum.map (fun p => (toString p.1, JVal.str p.2.toString))
  | _ => []

/-- One inbound MQTT message, characterised by the outcomes of the two
primitives the handler applies to it: `parse` is the result of
`JSON.parse(message)` (`none` when it throws) and `floatVal` the result
of `parseFloat(message)` (a number or NaN). -/
structure InMsg where
  parse : Option JVal
  floatVal : JVal

/-- Lines 187-195 of `src/index.js`: try `JSON.parse`; on success take
`data.value` when it is not `undefined`, else `parseFloat(message)`.
When `JSON.parse` throws — or when the parsed value is `null`, in which
case the `data.value` access itself throws inside the same `try` — the
catch branch sets `sensorValue = parseFloat(message)` and
`data = (value: sensorValue)`.  Returns `(sensorValue, data)`. -/
def parseMsg (m : InMsg) : JVal × JVal :=
  match m.parse with
  | none => (m.floatVal, .obj [("value", m.floatVal)])
  | some v =>
    if v.isNull then (m.floatVal, .obj [("value", m.floatVal)])
    else
      match jsGet v "value" with
      | some w => (w, v)
      | none => (m.floatVal, v)

/-- `String.prototype.split('/')` on the character list: `"a/b"` gives
`["a","b"]`, the empty string gives `[""]`, a trailing separator yields
a trailing empty segment — exactly the JS behaviour `handleSensorData`
relies on. -/
def splitOnSlash : List Char → List (List Char)
  | [] => [[]]
  | c :: cs =>
    match splitOnSlash cs with
    | [] => if c = '/' then [[], []] else [[c]]
    | seg :: segs =>
      if c = '/' then [] :: seg :: segs else (c :: seg) :: segs

/-- The sensor kind derived from a topic: its last `/`-separated
segment (lines 197-198 of `src/index.js`). -/
def topicKind (topic : String) : String :=
  String.mk ((splitOnSlash topic.data).getLastD [])

/-- A reading object, as its list of property assignments in order. -/
abbrev Reading : Type := List (String × JVal)

/-- Lines 201-206 of `src/index.js`: the reading handed to the store,
`(value, type, timestamp, ...data)` — the payload is spread last, so
payload fields override the three constructed ones. -/
def constructReading (sensorValue : JVal) (sensorType : String) (now : String)
    (data : JVal) : Reading :=
  [("value", sensorValue), ("type", JVal.str sensorType),
   ("timestamp", JVal.str now)] ++ jsSpread data

/-- The capacity of the bounded reading log (line 86 of the data store). -/
def storeCap : Nat := 1000

/-- The last `n` elements of a list, in order: `Array.prototype.slice(-n)`
for `n ≥ 1`, and the eviction result of the bounded store. -/
def takeLast (n : Nat) (l : List α) : List α :=
  l.drop (l.length - n)

/-- Lines 76-79 of the data store: `if (!reading.timestamp)` assign the
current ISO timestamp.  The check is JS truthiness of the `timestamp`
property (absent, `null`, `0`, `NaN`, `""` and `false` all trigger the
assignment). -/
def normalizeReading (r : Reading) (nowStore : String) : Reading :=
  match jsAssignGet r "timestamp" with
  | some v => if v.truthy then r else r ++ [("timestamp", JVal.str nowStore)]
  | none => r ++ [("timestamp", JVal.str nowStore)]

/-- `DataStore.storeSensorReading` (part_001, lines 70-98): default the
timestamp, push the reading, evict to `storeCap` from the front when the
length exceeds the cap (`slice(-1000)`), then write the file.  The push
and eviction happen before the write, so the in-memory array keeps the
reading even when the write fails; the boolean reports write success
(`false` models the thrown persistence error). -/
def storeSensorReading (store : List Reading) (r : Reading) (nowStore : String)
    (writeOk : Bool) : List Reading × Bool :=
  let r2 := normalizeReading r nowStore
  let pushed := store ++ [r2]
  let limited := if storeCap < pushed.length then takeLast storeCap pushed else pushed
  (limited, writeOk)

/-- `DataStore.getLatestReadings` (part_001, lines 105-117):
`readings.slice(-count)`.  For `count ≥ 1` this is the last `count`
elements; for `count = 0`, JS `slice(-0)` is `slice(0)` — the whole
array. -/
def getLatestReadings (readings : List Reading) (count : Nat) : List Reading :=
  if count = 0 then readings else takeLast count readings

/-- `DataStore.getLatestReadingByType` (part_001, lines 124-144):
scan from the newest entry backward for the first reading whose `type`
property equals the requested kind. -/
def getLatestReadingByType (readings : List Reading) (sensorType : String) :
    Option Reading :=
  (readings.reverse).find? (fun r =>
    match jsAssignGet r "type" with
    | some (JVal.str s) => s == sensorType
    | _ => false)

/-! ## ConnectionManager: `MqttHandler` (part_000, lines 15-160) -/

/-- The mutable state of `MqttHandler` relevant to subscribe/publish:
the `isConnected` flag and the `topicHandlers` map.  The map is modelled
as an association list where registration replaces any prior entry for
the exact topic; handlers are opaque identifiers. -/
structure MqttState where
  isConnected : Bool
  topicHandlers : List (String × Nat)

/-- `Map.prototype.set`: replace the entry for `topic` or add one. -/
def mapSet (m : List (String × Nat)) (topic : String) (h : Nat) :
    List (String × Nat) :=
  if m.any (fun kv => kv.1 == topic) then
    m.map (fun kv => if kv.1 == topic then (topic, h) else kv)
  else m ++ [(topic, h)]

/-- A call actually handed to the underlying `mqtt` client. -/
inductive TransportCall where
  | subscribeCall (topic : String)
  | publishCall (topic : String) (message : JVal)

/-- The rejection reasons of `MqttHandler.subscribe`/`publish`:
`notConnected` is the `new Error('MQTT client not connected')` fast-fail
path; the other two are transport-reported failures. -/
inductive MqttError where
  | notConnected
  | subscribeFailed
  | publishFailed
deriving DecidableEq

/-- Outcome of a `subscribe` or `publish` call: how the promise settled,
the handler state afterwards, and the calls made on the transport. -/
structure MqttOutcome where
  result : Except MqttError Unit
  state : MqttState
  transport : List TransportCall

/-- `MqttHandler.subscribe` (part_000, lines 88-110): reject immediately
when not connected (no transport call, no registration); otherwise call
`mqttClient.subscribe` — on transport error reject without registering,
on success register the handler (overwriting any prior one) and resolve.
`transportOk` is the outcome the broker client reports for this call. -/
def MqttHandler.subscribe (s : MqttState) (topic : String) (handler : Nat)
    (transportOk : Bool) : MqttOutcome :=
  if !s.isConnected then
    ⟨.error .notConnected, s, []⟩
  else if transportOk then
    ⟨.ok (), { s with topicHandlers := mapSet s.topicHandlers topic handler },
      [.subscribeCall topic]⟩
  else
    ⟨.error .subscribeFailed, s, [.subscribeCall topic]⟩

/-- Line 127-128 of part_000: `typeof message === 'object' ?
JSON.stringify(message) : message`.  Only values of JS type `object`
(objects, arrays, `null`) are serialized; strings — but also numbers and
booleans — are handed to the transport unchanged. -/
def serializeForPublish (message : JVal) : JVal :=
  if message.typeofObject then JVal.str message.stringify else message

/-- `MqttHandler.publish` (part_000, lines 119-141): reject immediately
when not connected (no transport call); otherwise hand
`serializeForPublish message` to `mqttClient.publish`, rejecting on a
transport-reported error and resolving otherwise.  The handler map is
never touched. -/
def MqttHandler.publish (s : MqttState) (topic : String) (message : JVal)
    (transportOk : Bool) : MqttOutcome :=
  if !s.isConnected then
    ⟨.error .notConnected, s, []⟩
  else
    let messageStr := serializeForPublish message
    if transportOk then
      ⟨.ok (), s, [.publishCall topic messageStr]⟩
    else
      ⟨.error .publishFailed, s, [.publishCall topic messageStr]⟩

/-! ## Mailbox collaborator: `EmailHandler` (part_000, lines 330-499) -/

/-- One fetched email as built by `fetchUnreadEmails` (subject, sender,
snippet; the remaining metadata is irrelevant to every claim). -/
structure Email where
  subject : String
  sender : String
  snippet : String

/-- Whitespace as stripped by `String.prototype.trim`. -/
def isWsChar (c : Char) : Bool :=
  c == ' ' || c == '\t' || c == '\n' || c == '\r'

/-- `String.prototype.trim`: strip leading and trailing whitespace. -/
def trimString (s : String) : String :=
  String.mk (((s.data.dropWhile isWsChar).reverse.dropWhile isWsChar).reverse)

/-- `EmailHandler.isEmailEnabled` (part_000, lines 367-369):
`this.refreshToken && this.refreshToken.trim() !== ''` — a truthy
(non-empty) token whose trimmed form is also non-empty. -/
def isEmailEnabled (refreshToken : String) : Bool :=
  !(refreshToken == "") && !(trimString refreshToken == "")

/-- `EmailHandler.fetchUnreadEmails` (part_000, lines 408-480, the
version `src/index.js` uses): skip with `[]` when no valid refresh token
is configured; otherwise perform the Gmail request, whose outcome is
`gmail` — a list of emails on success (already bounded by the API's
`maxResults`), or an error.  Every error path in the catch block —
`invalid_grant`, 401, and all others — returns the empty list instead of
rethrowing, so the returned promise never rejects. -/
def fetchUnreadEmails (refreshToken : String)
    (gmail : Except Unit (List Email)) : List Email :=
  if !isEmailEnabled refreshToken then []
  else
    match gmail with
    | .ok emails => emails
    | .error _ => []

/-! ## Aggregator and pipeline orchestrator (`src/index.js`) -/

/-- The process-wide `latestSensorData` object (lines 39-43 of
`src/index.js`): fields start as JS `null` and are overwritten with
whatever sensor value was ingested. -/
structure AggState where
  temperature : JVal
  humidity : JVal
  timestamp : JVal

/-- The initial `latestSensorData` value. -/
def initialSensorData : AggState := ⟨.null, .null, .null⟩

/-- The default display topics (configLoader defaults, part_001). -/
def quoteTopic : String := "auralink/display/quote"

/-- The default email-summary display topic. -/
def emailTopic : String := "auralink/display/email"

/-- The default priority display topic. -/
def priorityTopic : String := "auralink/display/priority"

/-- One publish attempt made by the pipeline: the topic, the string
payload handed to `mqttHandler.publish`, and whether that publish
resolved (`false` covers both a transport failure and a rejection while
disconnected). -/
structure Pub where
  topic : String
  payload : String
  ok : Bool
deriving DecidableEq

/-- The outcomes of every external call a single `processSensorData`
run can make, in the order the source would make them. -/
structure RunEnv where
  /-- `llmHandler.generateQuote` outcome. -/
  genQuote : Except Unit String
  /-- whether `publish(quote topic, quote)` resolves. -/
  pubQuote : Bool
  /-- the configured Gmail refresh token (drives `isEmailEnabled`). -/
  refreshToken : String
  /-- the Gmail API outcome inside `fetchUnreadEmails`. -/
  gmail : Except Unit (List Email)
  /-- `llmHandler.summarizeEmails` outcome. -/
  summarize : Except Unit String
  /-- `llmHandler.determinePriority` outcome. -/
  prio : Except Unit String
  /-- whether `publish(email topic, ...)` resolves. -/
  pubEmail : Bool
  /-- whether `publish(priority topic, ...)` resolves. -/
  pubPrio : Bool
  /-- whether the best-effort error publish in the catch block resolves. -/
  pubErrQuote : Bool

/-- The fallback sentinel published when the catch block of
`processSensorData` runs (line 297 of `src/index.js`). -/
def systemErrorMsg : String := "System error: Please check server logs"

/-- The catch block of `processSensorData` (lines 292-301): one
best-effort attempt to publish a generic error string to the quote
topic; its own failure is swallowed. -/
def catchPubs (env : RunEnv) : List Pub :=
  [⟨quoteTopic, systemErrorMsg, env.pubErrQuote⟩]

/-- Lines 252-284 of `src/index.js`: the email failure domain.  Starting
from `emailSummary = "No email data available"`, `priority = "normal"`:
when email is enabled, fetch (never throws — failures yield `[]`),
summarize when any emails were fetched or substitute
`"No unread emails"`, then classify priority; any exception in the
domain is caught and replaces the summary with
`"Email processing error"`, leaving priority at its last assigned value
(`"normal"`, since the catch is only reachable before the final
assignment to `priority` completes).  Returns (summary, priority). -/
def emailDomain (env : RunEnv) : String × String :=
  if isEmailEnabled env.refreshToken then
    let emails := fetchUnreadEmails env.refreshToken env.gmail
    match (if 0 < emails.length then env.summarize
           else Except.ok "No unread emails") with
    | .error _ => ("Email processing error", "normal")
    | .ok s =>
      match env.prio with
      | .error _ => ("Email processing error", "normal")
      | .ok p => (s, p)
  else
    ("No email data available", "normal")

/-- `processSensorData` (src/index.js, lines 234-302).  Returns `none`
when the readiness guard fails (either required field still `null`), and
otherwise the list of publish attempts the run makes, in order: generate
the quote and publish it first; run the email domain; publish the email
summary and then the priority.  Any exception — a failed quote
generation or a rejected publish — jumps to the catch block, which makes
one best-effort error publish to the quote topic; the function itself
never throws. -/
def processSensorData (s : AggState) (env : RunEnv) : Option (List Pub) :=
  if s.temperature.isNull || s.humidity.isNull then none
  else some (
    match env.genQuote with
    | .error _ => catchPubs env
    | .ok quote =>
      let p1 : Pub := ⟨quoteTopic, quote, env.pubQuote⟩
      if !env.pubQuote then [p1] ++ catchPubs env
      else
        let sp := emailDomain env
        let p2 : Pub := ⟨emailTopic, sp.1, env.pubEmail⟩
        if !env.pubEmail then [p1, p2] ++ catchPubs env
        else
          let p3 : Pub := ⟨priorityTopic, sp.2, env.pubPrio⟩
          if !env.pubPrio then [p1, p2, p3] ++ catchPubs env
          else [p1, p2, p3])

/-- The result of handling one inbound sensor message: the aggregate
state afterwards, the store's in-memory log afterwards, and the pipeline
run's publish attempts (`none` when no run got past the readiness guard
— either because persistence failed before it or because a required kind
was missing). -/
structure HandleOutcome where
  agg : AggState
  store : List Reading
  run : Option (List Pub)

/-- `handleSensorData` (src/index.js, lines 181-229): parse the message,
derive the kind from the topic's last segment, construct the reading
(payload spread last), store it — a persistence failure throws into the
outer catch, skipping everything that follows — then update
`latestSensorData` keyed by the topic-derived kind (the timestamp copied
from the reading after the store may have mutated it), and finally call
`processSensorData`.  The outer catch swallows every error, so the
handler itself never throws. -/
def handleSensorData (s : AggState) (store : List Reading) (topic : String)
    (msg : InMsg) (now nowStore : String) (writeOk : Bool) (env : RunEnv) :
    HandleOutcome :=
  let pm := parseMsg msg
  let sensorValue := pm.1
  let sensorType := topicKind topic
  let reading := constructReading sensorValue sensorType now pm.2
  let stored := storeSensorReading store reading nowStore writeOk
  if !stored.2 then
    ⟨s, stored.1, none⟩
  else
    let ts := (jsAssignGet (normalizeReading reading nowStore) "timestamp").getD .null
    let s2 :=
      if sensorType == "temperature" then
        { s with temperature := sensorValue, timestamp := ts }
      else if sensorType == "humidity" then
        { s with humidity := sensorValue, timestamp := ts }
      else s
    ⟨s2, stored.1, processSensorData s2 env⟩

/-- True when the reading's `timestamp` property is present and truthy,
i.e. `storeSensorReading` stores the reading unchanged. -/
def hasTruthyTimestamp (r : Reading) : Bool :=
  match jsAssignGet r "timestamp" with
  | some v => v.truthy
  | none => false

/-- One ingestion event for a sequence-level statement: the inbound
topic and message, the two wall-clock timestamps, and the outcomes of
the external calls of the pipeline run the ingestion may trigger. -/
structure IngestInput where
  topic : String
  msg : InMsg
  now : String
  nowStore : String
  env : RunEnv

/-- Folding one successfully-persisted ingestion over the aggregate
state and the store log (the handler with `writeOk = true`). -/
def ingestStep (p : AggState × List Reading) (i : IngestInput) :
    AggState × List Reading :=
  let o := handleSensorData p.1 p.2 i.topic i.msg i.now i.nowStore true i.env
  (o.agg, o.store)

/-- The sensor value an ingestion carries (the `sensorValue` of
lines 184-195 of `src/index.js`). -/
def ingestValue (i : IngestInput) : JVal :=
  (parseMsg i.msg).1

/-- The value of the most recent ingestion of the given kind in a
sequence, or the supplied default when the sequence has none. -/
def lastKindValue (kind : String) (l : List IngestInput) (dflt : JVal) : JVal :=
  match (l.filter (fun i => topicKind i.topic == kind)).getLast? with
  | some i => ingestValue i
  | none => dflt

/-! ## General lemmas about `takeLast` and the fold of the store -/

theorem takeLast_of_length_le {l : List α} {n : Nat} (h : l.length ≤ n) :
    takeLast n l = l := by
  unfold takeLast
  rw [Nat.sub_eq_zero_of_le h, List.drop_zero]

theorem length_takeLast (n : Nat) (l : List α) :
    (takeLast n l).length = min n l.length := by
  unfold takeLast
  rw [List.length_drop]
  omega

theorem takeLast_drop {n j : Nat} {l : List α} (h : j + n ≤ l.length) :
    takeLast n (l.drop j) = takeLast n l := by
  unfold takeLast
  rw [List.length_drop, List.drop_drop]
  congr 1
  omega

theorem takeLast_append_left (n : Nat) (l m : List α) :
    takeLast n (takeLast n l ++ m) = takeLast n (l ++ m) := by
  by_cases h : l.length ≤ n
  · rw [takeLast_of_length_le h]
  · have hk : l.length - n ≤ l.length := Nat.sub_le _ _
    have h1 : takeLast n l ++ m = (l ++ m).drop (l.length - n) := by
      show l.drop (l.length - n) ++ m = _
      rw [List.drop_append_eq_append_drop, Nat.sub_eq_zero_of_le hk, List.drop_zero]
    rw [h1, takeLast_drop]
    rw [List.length_append]
    omega

theorem storeSensorReading_fst (store : List Reading) (r : Reading) (ns : String)
    (ok : Bool) :
    (storeSensorReading store r ns ok).1
      = takeLast storeCap (store ++ [normalizeReading r ns]) := by
  have hrfl : (storeSensorReading store r ns ok).1
      = if storeCap < (store ++ [normalizeReading r ns]).length
        then takeLast storeCap (store ++ [normalizeReading r ns])
        else store ++ [normalizeReading r ns] := rfl
  rw [hrfl]
  split
  · rfl
  · next h => exact (takeLast_of_length_le (Nat.le_of_not_lt h)).symm

theorem storeFold (rs : List (Reading × String)) :
    ∀ s : List Reading, s.length ≤ storeCap →
      rs.foldl (fun st p => (storeSensorReading st p.1 p.2 true).1) s
        = takeLast storeCap (s ++ rs.map (fun p => normalizeReading p.1 p.2)) := by
  induction rs with
  | nil =>
    intro s h
    simp [takeLast_of_length_le h]
  | cons p rs ih =>
    intro s h
    rw [List.foldl_cons]
    have h1 := storeSensorReading_fst s p.1 p.2 true
    have h2 : (storeSensorReading s p.1 p.2 true).1.length ≤ storeCap := by
      rw [h1, length_takeLast]
      omega
    rw [ih _ h2, h1, takeLast_append_left]
    simp

theorem normalizeReading_of_truthy {r : Reading} (ns : String)
    (h : hasTruthyTimestamp r = true) : normalizeReading r ns = r := by
  unfold hasTruthyTimestamp at h
  unfold normalizeReading
  rcases hj : jsAssignGet r "timestamp" with _ | v <;> rw [hj] at h <;> simp_all

/-! ## General lemmas about property lookup, the pipeline and ingestion -/

theorem jsAssignGet_foldl (k : String) (b : List (String × JVal)) :
    ∀ acc : Option JVal,
      b.foldl (fun acc kv => if kv.1 = k then some kv.2 else acc) acc
        = (jsAssignGet b k).elim acc some := by
  induction b with
  | nil => intro acc; rfl
  | cons kv b ih =>
    intro acc
    rw [List.foldl_cons]
    rw [ih (if kv.1 = k then some kv.2 else acc)]
    have h2 : jsAssignGet (kv :: b) k
        = (jsAssignGet b k).elim (if kv.1 = k then some kv.2 else none) some := by
      show b.foldl _ (if kv.1 = k then some kv.2 else none) = _
      exact ih _
    rw [h2]
    rcases jsAssignGet b k with _ | v
    · by_cases hk : kv.1 = k <;> simp [hk]
    · simp

theorem jsAssignGet_append (a b : List (String × JVal)) (k : String) :
    jsAssignGet (a ++ b) k = (jsAssignGet b k).elim (jsAssignGet a k) some := by
  show (a ++ b).foldl _ none = _
  rw [List.foldl_append]
  exact jsAssignGet_foldl k b _

theorem storeSensorReading_snd (store : List Reading) (r : Reading) (ns : String)
    (ok : Bool) : (storeSensorReading store r ns ok).2 = ok := rfl

theorem processSensorData_isSome (s : AggState) (env : RunEnv) :
    (processSensorData s env).isSome = true
      ↔ (s.temperature.isNull = false ∧ s.humidity.isNull = false) := by
  unfold processSensorData
  cases ht : s.temperature.isNull <;> cases hh : s.humidity.isNull <;> simp [ht, hh]

theorem processSensorData_ne_some_nil (s : AggState) (env : RunEnv) :
    processSensorData s env ≠ some [] := by
  unfold processSensorData
  split
  · simp
  · simp only [ne_eq, Option.some.injEq]
    rcases hq : env.genQuote with u | q2 <;> simp [hq, catchPubs] <;>
      split_ifs <;> simp [catchPubs]

theorem parseMsg_snd_obj (m : InMsg) (fields : List (String × JVal))
    (hp : m.parse = some (JVal.obj fields)) :
    (parseMsg m).2 = JVal.obj fields := by
  unfold parseMsg
  rw [hp]
  cases h : jsGet (JVal.obj fields) "value" <;> simp [JVal.isNull, h]

theorem ingestStep_fst_temperature (p : AggState × List Reading) (i : IngestInput) :
    (ingestStep p i).1.temperature
      = if topicKind i.topic == "temperature" then ingestValue i
        else p.1.temperature := by
  by_cases h1 : (topicKind i.topic == "temperature") = true
  · simp [ingestStep, handleSensorData, storeSensorReading_snd, h1, ingestValue]
  · by_cases h2 : (topicKind i.topic == "humidity") = true <;>
      simp [ingestStep, handleSensorData, storeSensorReading_snd, h1, h2]

theorem ingestStep_fst_humidity (p : AggState × List Reading) (i : IngestInput) :
    (ingestStep p i).1.humidity
      = if topicKind i.topic == "humidity" then ingestValue i
        else p.1.humidity := by
  by_cases h2 : (topicKind i.topic == "humidity") = true
  · have he : topicKind i.topic = "humidity" := by simpa using h2
    simp [ingestStep, handleSensorData, storeSensorReading_snd, ingestValue, he,
          (show (("humidity" : String) == "temperature") = false from rfl)]
  · by_cases h1 : (topicKind i.topic == "temperature") = true <;>
      simp [ingestStep, handleSensorData, storeSensorReading_snd, h1, h2]

theorem lastKindValue_append (kind : String) (l : List IngestInput) (x : IngestInput)
    (d : JVal) :
    lastKindValue kind (l ++ [x]) d
      = if topicKind x.topic == kind then ingestValue x
        else lastKindValue kind l d := by
  unfold lastKindValue
  rw [List.filter_append]
  by_cases hx : (topicKind x.topic == kind) = true
  · simp [hx, List.getLast?_concat]
  · simp [hx]

/-! ## Claims -/

/-- C1 counterexample: a concrete triggered run in which the Gmail fetch
fails (`gmail = error`) while everything else succeeds.  The quote is
published, no exception propagates — but the email topic receives the
`"No unread emails"` sentinel, not the `"Email processing error"`
sentinel the claim requires: `fetchUnreadEmails` swallows the failure
and returns the empty list, which the orchestrator cannot distinguish
from a genuinely empty inbox. -/
theorem fetch_failure_email_not_error_sentinel_cex :
    (processSensorData ⟨JVal.num 20, JVal.num 50, JVal.null⟩
        ⟨.ok "quoteText", true, "token1", .error (), .ok "sumText", .ok "high",
         true, true, true⟩
      = some [⟨quoteTopic, "quoteText", true⟩,
              ⟨emailTopic, "No unread emails", true⟩,
              ⟨priorityTopic, "high", true⟩]) ∧
    ("No unread emails" ≠ "Email processing error") :=
  ⟨rfl, by decide⟩

/-- C1 (amended): for every pipeline run in which the mailbox
collaborator's unread-message fetch fails while the quote step, the
priority call and the publishes succeed, the quote is still published to
the quote topic and no exception propagates out of the run; the email
topic, however, receives the `"No unread emails"` sentinel — the fetch
failure is swallowed inside `fetchUnreadEmails`, which substitutes an
empty result set — not the `"Email processing error"` sentinel, which is
published only when a collaborator call throws inside the orchestrator's
email try-block. -/
theorem fetch_failure_quote_published_email_no_unread (s : AggState)
    (env : RunEnv) (q p : String)
    (h1 : s.temperature.isNull = false) (h2 : s.humidity.isNull = false)
    (h3 : env.genQuote = .ok q) (h4 : env.pubQuote = true)
    (h5 : isEmailEnabled env.refreshToken = true)
    (h6 : env.gmail = .error ()) (h7 : env.prio = .ok p)
    (h8 : env.pubEmail = true) (h9 : env.pubPrio = true) :
    processSensorData s env
      = some [⟨quoteTopic, q, true⟩, ⟨emailTopic, "No unread emails", true⟩,
              ⟨priorityTopic, p, true⟩] := by
  simp [processSensorData, emailDomain, fetchUnreadEmails,
        h1, h2, h3, h4, h5, h6, h7, h8, h9]

/-- C1 witness: the amended theorem applied to a concrete run with a
failing fetch. -/
theorem fetch_failure_quote_published_email_no_unread_witness :
    processSensorData ⟨JVal.num 22, JVal.num 45, JVal.null⟩
        ⟨.ok "Keep going", true, "tok", .error (), .ok "sum", .ok "normal",
         true, true, true⟩
      = some [⟨quoteTopic, "Keep going", true⟩,
              ⟨emailTopic, "No unread emails", true⟩,
              ⟨priorityTopic, "normal", true⟩] :=
  fetch_failure_quote_published_email_no_unread _ _ _ _
    rfl rfl rfl rfl rfl rfl rfl rfl rfl

/-- C2: an ingestion that persists successfully triggers a pipeline run
if and only if, in the latest-value state at evaluation time (i.e. after
this ingestion's own update), both required kinds — temperature and
humidity — hold a non-null entry; when either is still null, the run
returns without publishing anything. -/
theorem trigger_iff_required_kinds_present (s : AggState) (store : List Reading)
    (topic : String) (msg : InMsg) (now nowStore : String) (env : RunEnv) :
    ((handleSensorData s store topic msg now nowStore true env).run.isSome = true)
      ↔ (((handleSensorData s store topic msg now nowStore true env).agg.temperature.isNull
            = false)
          ∧ ((handleSensorData s store topic msg now nowStore true env).agg.humidity.isNull
            = false)) := by
  have hrun : (handleSensorData s store topic msg now nowStore true env).run
      = processSensorData
          (handleSensorData s store topic msg now nowStore true env).agg env := rfl
  rw [hrun]
  exact processSensorData_isSome _ _

/-- C3 counterexample: a concrete temperature message (value 22) whose
store write fails.  The aggregate is left exactly as it was — the
temperature entry is still null although a non-null value was ingested —
and no trigger evaluation takes place, refuting the claim that a
durability failure does not block aggregation or publication. -/
theorem persistence_failure_blocks_aggregate_cex :
    ((handleSensorData initialSensorData [] "auralink/sensors/temperature"
        ⟨some (JVal.obj [("value", JVal.num 22)]), JVal.num 22⟩ "T1" "T2" false
        ⟨.ok "q", true, "tok", .ok [], .ok "s", .ok "p", true, true, true⟩).agg
      = initialSensorData) ∧
    ((handleSensorData initialSensorData [] "auralink/sensors/temperature"
        ⟨some (JVal.obj [("value", JVal.num 22)]), JVal.num 22⟩ "T1" "T2" false
        ⟨.ok "q", true, "tok", .ok [], .ok "s", .ok "p", true, true, true⟩).run
      = none) ∧
    (JVal.num 22 ≠ JVal.null) :=
  ⟨rfl, rfl, fun h => JVal.noConfusion h⟩

/-- C3 (amended): for every inbound sensor message whose persistence
fails, the error thrown by `storeSensorReading` lands in the message
handler's outer catch: the in-memory latest-value aggregate is *not*
updated with that reading and the pipeline trigger evaluation does *not*
run — a durability failure blocks both for that message (the pushed
reading does remain in the store's in-memory array, since the push
precedes the failed write, and the handler swallows the error rather
than crashing). -/
theorem persistence_failure_blocks_aggregate_and_trigger (s : AggState)
    (store : List Reading) (topic : String) (msg : InMsg)
    (now nowStore : String) (env : RunEnv) :
    ((handleSensorData s store topic msg now nowStore false env).agg = s) ∧
    ((handleSensorData s store topic msg now nowStore false env).run = none) ∧
    ((handleSensorData s store topic msg now nowStore false env).store
      = (storeSensorReading store
          (constructReading (parseMsg msg).1 (topicKind topic) now (parseMsg msg).2)
          nowStore false).1) :=
  ⟨rfl, rfl, rfl⟩

/-- C4: starting from the empty log, any sequence of more than 1000
successful appends (each reading carrying a truthy timestamp, as every
reading built by `handleSensorData` with a non-empty ISO string does)
leaves exactly 1000 entries in the store, equal to the most recent 1000
appended readings in arrival order — oldest-first eviction. -/
theorem bounded_store_keeps_most_recent_cap (rs : List (Reading × String))
    (hN : 1000 < rs.length)
    (ht : ∀ pr ∈ rs, hasTruthyTimestamp pr.1 = true) :
    ((rs.foldl (fun st pr => (storeSensorReading st pr.1 pr.2 true).1) []).length
      = 1000) ∧
    (rs.foldl (fun st pr => (storeSensorReading st pr.1 pr.2 true).1) []
      = takeLast 1000 (rs.map Prod.fst)) := by
  have hmap : rs.map (fun pr => normalizeReading pr.1 pr.2) = rs.map Prod.fst := by
    apply List.map_congr_left
    intro pr hp
    exact normalizeReading_of_truthy _ (ht pr hp)
  have h := storeFold rs [] (by simp)
  rw [hmap, List.nil_append] at h
  refine ⟨?_, h⟩
  rw [h, length_takeLast, List.length_map]
  show min storeCap rs.length = 1000
  unfold storeCap
  omega

/-- C4 witness: 1001 identical timestamped readings appended to the
empty store. -/
theorem bounded_store_keeps_most_recent_cap_witness :
    (((List.replicate 1001 (([("timestamp", JVal.str "T")] : Reading), "S")).foldl
        (fun st pr => (storeSensorReading st pr.1 pr.2 true).1) []).length = 1000) ∧
    ((List.replicate 1001 (([("timestamp", JVal.str "T")] : Reading), "S")).foldl
        (fun st pr => (storeSensorReading st pr.1 pr.2 true).1) []
      = takeLast 1000
          ((List.replicate 1001 (([("timestamp", JVal.str "T")] : Reading), "S")).map
            Prod.fst)) :=
  bounded_store_keeps_most_recent_cap _
    (by simp only [List.length_replicate]; omega)
    (fun pr hp => by rw [List.eq_of_mem_replicate hp]; rfl)

/-- C5: while the `isConnected` flag is false, both `subscribe` and
`publish` reject with the not-connected error, make no call on the
underlying transport client, and leave the topic-handler map (indeed the
whole handler state) unchanged. -/
theorem not_connected_fast_fail (hs : List (String × Nat)) (topic : String)
    (handler : Nat) (m : JVal) (ok1 ok2 : Bool) :
    (MqttHandler.subscribe ⟨false, hs⟩ topic handler ok1
      = ⟨.error .notConnected, ⟨false, hs⟩, []⟩) ∧
    (MqttHandler.publish ⟨false, hs⟩ topic m ok2
      = ⟨.error .notConnected, ⟨false, hs⟩, []⟩) :=
  ⟨rfl, rfl⟩

/-- C6: for every sequence of successfully persisted ingestions and each
tracked sensor kind (the aggregate tracks exactly temperature and
humidity), the latest-value entry for that kind after the sequence
equals the sensor value of the most recently ingested reading whose
topic-derived kind matches — last-write-wins — regardless of how
readings of other kinds are interleaved; kinds never ingested keep their
initial entry. -/
theorem latest_by_kind_last_write_wins (l : List IngestInput) (s : AggState)
    (store : List Reading) :
    ((l.foldl ingestStep (s, store)).1.temperature
        = lastKindValue "temperature" l s.temperature) ∧
    ((l.foldl ingestStep (s, store)).1.humidity
        = lastKindValue "humidity" l s.humidity) := by
  induction l using List.reverseRecOn with
  | nil => exact ⟨rfl, rfl⟩
  | append_singleton l x ih =>
    rw [List.foldl_append]
    constructor
    · rw [show List.foldl ingestStep (List.foldl ingestStep (s, store) l) [x]
            = ingestStep (List.foldl ingestStep (s, store) l) x from rfl]
      rw [ingestStep_fst_temperature, lastKindValue_append, ih.1]
    · rw [show List.foldl ingestStep (List.foldl ingestStep (s, store) l) [x]
            = ingestStep (List.foldl ingestStep (s, store) l) x from rfl]
      rw [ingestStep_fst_humidity, lastKindValue_append, ih.2]

/-- C7 counterexample: a concrete triggered run in which quote
generation fails.  The run publishes only the best-effort error string
to the quote topic; the email-summary and priority topics — which are
distinct topics — receive no publish at all, refuting the claim that
they are published regardless of the quote step's outcome. -/
theorem quote_failure_leaves_email_priority_unpublished_cex :
    (processSensorData ⟨JVal.num 20, JVal.num 50, JVal.null⟩
        ⟨.error (), true, "token1", .ok [], .ok "s", .ok "n", true, true, true⟩
      = some [⟨quoteTopic, systemErrorMsg, true⟩]) ∧
    (quoteTopic ≠ emailTopic) ∧ (quoteTopic ≠ priorityTopic) :=
  ⟨rfl, by decide, by decide⟩

/-- C7 (amended): for every triggered pipeline run in which the quote
step succeeds and the three topic publishes resolve, the email-summary
and priority topics each receive a publish carrying a real value or a
defined fallback, whatever the mailbox and text-classification outcomes
were; and every triggered run attempts at least one display-topic
publish.  When the quote step fails, however, the email and priority
topics receive no publish — the run only makes one best-effort error
publish to the quote topic. -/
theorem email_domain_isolation_publishes_display_topics (s : AggState)
    (env : RunEnv) (q : String)
    (h1 : s.temperature.isNull = false) (h2 : s.humidity.isNull = false)
    (h3 : env.genQuote = .ok q) (h4 : env.pubQuote = true)
    (h5 : env.pubEmail = true) (h6 : env.pubPrio = true) :
    (processSensorData s env
      = some [⟨quoteTopic, q, true⟩, ⟨emailTopic, (emailDomain env).1, true⟩,
              ⟨priorityTopic, (emailDomain env).2, true⟩]) ∧
    (∀ env2 : RunEnv, ∃ l, processSensorData s env2 = some l ∧ l ≠ []) := by
  constructor
  · simp [processSensorData, h1, h2, h3, h4, h5, h6]
  · intro env2
    have hsome : (processSensorData s env2).isSome = true :=
      (processSensorData_isSome s env2).mpr ⟨h1, h2⟩
    rcases Option.isSome_iff_exists.mp hsome with ⟨l, hl⟩
    exact ⟨l, hl, fun hnil => processSensorData_ne_some_nil s env2 (hnil ▸ hl)⟩

/-- C7 witness: the amended theorem at a concrete run whose mailbox is
disabled and whose classifier would fail — the display topics still get
their fallback publishes. -/
theorem email_domain_isolation_publishes_display_topics_witness :
    (processSensorData ⟨JVal.num 21, JVal.num 40, JVal.null⟩
        ⟨.ok "w-quote", true, "", .ok [], .error (), .error (), true, true, false⟩
      = some [⟨quoteTopic, "w-quote", true⟩,
              ⟨emailTopic,
                (emailDomain ⟨.ok "w-quote", true, "", .ok [], .error (),
                  .error (), true, true, false⟩).1, true⟩,
              ⟨priorityTopic,
                (emailDomain ⟨.ok "w-quote", true, "", .ok [], .error (),
                  .error (), true, true, false⟩).2, true⟩]) ∧
    (∀ env2 : RunEnv, ∃ l,
        processSensorData ⟨JVal.num 21, JVal.num 40, JVal.null⟩ env2 = some l
          ∧ l ≠ []) :=
  email_domain_isolation_publishes_display_topics _ _ _ rfl rfl rfl rfl rfl rfl

/-- C8 counterexample: publishing the number 42 while connected hands
the number itself to the transport — `typeof 42` is not `'object'`, so
the code's serialization guard does not fire even though 42 is not a
string, refuting "every non-string message is serialized to JSON". -/
theorem publish_number_not_serialized_cex :
    ((MqttHandler.publish ⟨true, []⟩ "sometopic" (JVal.num 42) true).transport
      = [TransportCall.publishCall "sometopic" (JVal.num 42)]) ∧
    ((JVal.num 42).isStr = false) ∧
    (JVal.num 42 ≠ JVal.str ((JVal.num 42).stringify)) :=
  ⟨rfl, rfl, fun h => JVal.noConfusion h⟩

/-- C8 (amended): for every message passed to `publish` while connected,
the value handed to the transport is the message itself unless the
message is of JS `object` type — plain objects, arrays, and `null` are
JSON-serialized first; strings pass through unchanged, but so do numbers
and booleans (they are not strings and are not serialized). -/
theorem publish_serialization_object_type_only (hs : List (String × Nat))
    (topic : String) (ok : Bool) (s : String) (n : Int) (b : Bool)
    (xs : List JVal) (fields : List (String × JVal)) :
    ((MqttHandler.publish ⟨true, hs⟩ topic (JVal.str s) ok).transport
      = [.publishCall topic (JVal.str s)]) ∧
    ((MqttHandler.publish ⟨true, hs⟩ topic (JVal.obj fields) ok).transport
      = [.publishCall topic (JVal.str (JVal.obj fields).stringify)]) ∧
    ((MqttHandler.publish ⟨true, hs⟩ topic (JVal.arr xs) ok).transport
      = [.publishCall topic (JVal.str (JVal.arr xs).stringify)]) ∧
    ((MqttHandler.publish ⟨true, hs⟩ topic JVal.null ok).transport
      = [.publishCall topic (JVal.str "null")]) ∧
    ((MqttHandler.publish ⟨true, hs⟩ topic (JVal.num n) ok).transport
      = [.publishCall topic (JVal.num n)]) ∧
    ((MqttHandler.publish ⟨true, hs⟩ topic (JVal.bool b) ok).transport
      = [.publishCall topic (JVal.bool b)]) := by
  cases ok <;> exact ⟨rfl, rfl, rfl, rfl, rfl, rfl⟩

/-- C9 counterexample: requesting 0 readings from a store holding one
reading returns the whole log — `slice(-0)` is `slice(0)` — so the
result has more elements than the requested count, refuting "it never
returns more than count readings". -/
theorem latest_zero_count_returns_all_cex :
    (getLatestReadings [[("value", JVal.num 1)]] 0 = [[("value", JVal.num 1)]]) ∧
    (0 < (getLatestReadings [[("value", JVal.num 1)]] 0).length) :=
  ⟨rfl, by decide⟩

/-- C9 (amended): for every store state and every requested count ≥ 1,
`getLatestReadings` returns a suffix of the log (the most recent
readings in insertion order) of length `min count length` — hence never
more than `count` — and returns the whole log when it holds at most
`count` readings.  For `count = 0` the JS `slice(-0)` quirk returns the
entire log instead. -/
theorem latest_window_bounded (readings : List Reading) (count : Nat)
    (h : 1 ≤ count) :
    (getLatestReadings readings count <:+ readings) ∧
    ((getLatestReadings readings count).length = min count readings.length) ∧
    (readings.length ≤ count → getLatestReadings readings count = readings) := by
  have hc : ¬(count = 0) := by omega
  unfold getLatestReadings
  rw [if_neg hc]
  exact ⟨List.drop_suffix _ _, length_takeLast _ _,
    fun hl => takeLast_of_length_le hl⟩

/-- C9 witness: the amended theorem at a two-reading store with
count 1. -/
theorem latest_window_bounded_witness :
    (getLatestReadings [[("value", JVal.num 1)], [("value", JVal.num 2)]] 1
      <:+ [[("value", JVal.num 1)], [("value", JVal.num 2)]]) ∧
    ((getLatestReadings [[("value", JVal.num 1)], [("value", JVal.num 2)]] 1).length
      = min 1 ([[("value", JVal.num 1)], [("value", JVal.num 2)]] : List Reading).length) ∧
    (([[("value", JVal.num 1)], [("value", JVal.num 2)]] : List Reading).length ≤ 1
      → getLatestReadings [[("value", JVal.num 1)], [("value", JVal.num 2)]] 1
        = [[("value", JVal.num 1)], [("value", JVal.num 2)]]) :=
  latest_window_bounded _ 1 (by decide)

/-- C10: for every inbound message whose payload parses as a JSON object
carrying `type` and `timestamp` fields, the reading handed to the store
has those payload values as its effective `type` and `timestamp` — the
payload is spread over the constructed reading last, overriding the
topic-derived kind and the ingestion-assigned timestamp — while the
in-memory aggregate update is keyed by the topic-derived kind
regardless (here a temperature topic updates the temperature entry even
though the payload declares another `type`). -/
theorem payload_overrides_store_agg_topic_keyed (s : AggState)
    (store : List Reading) (topic : String) (m : InMsg)
    (fields : List (String × JVal)) (tv tsv : JVal)
    (now nowStore : String) (env : RunEnv)
    (hp : m.parse = some (JVal.obj fields))
    (ht : jsAssignGet fields "type" = some tv)
    (hts : jsAssignGet fields "timestamp" = some tsv)
    (hk : topicKind topic = "temperature") :
    (jsAssignGet (constructReading (parseMsg m).1 (topicKind topic) now (parseMsg m).2)
        "type" = some tv) ∧
    (jsAssignGet (constructReading (parseMsg m).1 (topicKind topic) now (parseMsg m).2)
        "timestamp" = some tsv) ∧
    ((handleSensorData s store topic m now nowStore true env).agg.temperature
      = (parseMsg m).1) ∧
    ((handleSensorData s store topic m now nowStore true env).agg.humidity
      = s.humidity) := by
  have hdata := parseMsg_snd_obj m fields hp
  refine ⟨?_, ?_, ?_, ?_⟩
  · unfold constructReading
    rw [hdata]
    rw [show jsSpread (JVal.obj fields) = fields from rfl]
    rw [jsAssignGet_append, ht]
    rfl
  · unfold constructReading
    rw [hdata]
    rw [show jsSpread (JVal.obj fields) = fields from rfl]
    rw [jsAssignGet_append, hts]
    rfl
  · simp [handleSensorData, storeSensorReading_snd, hk]
  · simp [handleSensorData, storeSensorReading_snd, hk]

/-- C10 witness: a temperature-topic message whose payload declares
`type: "humidity"` and `timestamp: "X"`; the stored reading carries the
payload's values, while the aggregate's temperature entry is the one
updated. -/
theorem payload_overrides_store_agg_topic_keyed_witness :
    (jsAssignGet
        (constructReading
          (parseMsg ⟨some (JVal.obj [("value", JVal.num 7), ("type", JVal.str "humidity"),
              ("timestamp", JVal.str "X")]), JVal.num 7⟩).1
          (topicKind "auralink/sensors/temperature") "T1"
          (parseMsg ⟨some (JVal.obj [("value", JVal.num 7), ("type", JVal.str "humidity"),
              ("timestamp", JVal.str "X")]), JVal.num 7⟩).2) "type"
      = some (JVal.str "humidity")) ∧
    (jsAssignGet
        (constructReading
          (parseMsg ⟨some (JVal.obj [("value", JVal.num 7), ("type", JVal.str "humidity"),
              ("timestamp", JVal.str "X")]), JVal.num 7⟩).1
          (topicKind "auralink/sensors/temperature") "T1"
          (parseMsg ⟨some (JVal.obj [("value", JVal.num 7), ("type", JVal.str "humidity"),
              ("timestamp", JVal.str "X")]), JVal.num 7⟩).2) "timestamp"
      = some (JVal.str "X")) ∧
    ((handleSensorData initialSensorData [] "auralink/sensors/temperature"
        ⟨some (JVal.obj [("value", JVal.num 7), ("type", JVal.str "humidity"),
            ("timestamp", JVal.str "X")]), JVal.num 7⟩ "T1" "T2" true
        ⟨.ok "q", true, "", .ok [], .ok "s", .ok "p", true, true, true⟩).agg.temperature
      = (parseMsg ⟨some (JVal.obj [("value", JVal.num 7), ("type", JVal.str "humidity"),
            ("timestamp", JVal.str "X")]), JVal.num 7⟩).1) ∧
    ((handleSensorData initialSensorData [] "auralink/sensors/temperature"
        ⟨some (JVal.obj [("value", JVal.num 7), ("type", JVal.str "humidity"),
            ("timestamp", JVal.str "X")]), JVal.num 7⟩ "T1" "T2" true
        ⟨.ok "q", true, "", .ok [], .ok "s", .ok "p", true, true, true⟩).agg.humidity
      = initialSensorData.humidity) :=
  payload_overrides_store_agg_topic_keyed _ _ _ _ _ _ _ _ _ _ rfl rfl rfl rfl
